import Mathlib

/-!
Verification of the NeuroSputnik web core against its design document.

The development shallowly embeds the two core source modules:
  * `learning/dataset-builder.js` (class `DatasetBuilder`): conversation and
    game-session recording, topic/sentiment tagging, training-example
    weighting, size-bounded eviction, export/import of the dataset.
  * `sw.js` (class `OllamaWebEngine`): the WebAssembly engine wrapper with
    its initialize/loadModel/generateResponse/trainOnData/saveModel calls
    crossing the foreign-memory boundary.

Modelling conventions: JS numbers are embedded as `ℚ` (the code performs no
operation whose result depends on binary floating-point rounding at the
resolution any claim speaks about); JS array `slice(-k)` is embedded with its
actual semantics including the `slice(-0) = slice(0)` corner case;
`Math.floor(n * 0.8)` on array lengths is embedded as `n * 4 / 5` in `ℕ`
(exact for every array length a JS double can index); string lengths use
Unicode code points (identical to JS UTF-16 lengths for all texts involved,
which lie in the BMP).  `Date.now()` and `toISOString()` results are passed
in as explicit parameters.
-/

set_option maxRecDepth 100000

/-- UTF-8 byte count of one character, as used by `Blob.size`. -/
def charUtf8Size (c : Char) : Nat :=
  if c.toNat < 0x80 then 1
  else if c.toNat < 0x800 then 2
  else if c.toNat < 0x10000 then 3
  else 4

/-- UTF-8 byte length of a string: the model of `new Blob([s]).size`. -/
def strBytes (s : String) : Nat :=
  s.data.foldr (fun c n => charUtf8Size c + n) 0

/-- JS `String.prototype.toLowerCase` restricted to the character ranges the
source's keyword tables use: ASCII letters and the Cyrillic block. -/
def jsToLowerChar (c : Char) : Char :=
  if 'A' ≤ c ∧ c ≤ 'Z' then Char.ofNat (c.toNat + 32)
  else if 0x410 ≤ c.toNat ∧ c.toNat ≤ 0x42F then Char.ofNat (c.toNat + 0x20)
  else if c.toNat = 0x401 then Char.ofNat 0x451
  else c

/-- Lowercasing of a whole string (model of `message.toLowerCase()`). -/
def jsToLower (s : String) : String :=
  String.mk (s.data.map jsToLowerChar)

/-- Does `needle` occur at the start of `hay` (on character lists)? -/
def startsWithL : List Char → List Char → Bool
  | [], _ => true
  | _ :: _, [] => false
  | a :: as, b :: bs => a == b && startsWithL as bs

/-- Does `needle` occur anywhere in `hay` (on character lists)? -/
def containsSubL (needle : List Char) : List Char → Bool
  | [] => startsWithL needle []
  | l@(_ :: t) => startsWithL needle l || containsSubL needle t

/-- Model of JS `hay.includes(needle)` for strings. -/
def jsIncludes (hay needle : String) : Bool :=
  containsSubL needle.data hay.data

/-- The ordered topic keyword table of `DatasetBuilder.analyzeTopic`
(`Object.entries` iterates in insertion order, so the first matching
category wins). -/
def topicTable : List (String × List String) :=
  [("programming", ["код", "программир", "алгоритм", "python", "javascript", "функция", "переменн"]),
   ("science", ["наук", "физик", "хими", "биолог", "математ", "теория"]),
   ("learning", ["обуч", "изуч", "курс", "учеб", "заняти"]),
   ("creative", ["идея", "придумай", "создай", "креатив", "творчеств"]),
   ("technical", ["техник", "компьютер", "телефон", "приложени", "настройк"])]

/-- `DatasetBuilder.analyzeTopic`: first-match keyword lookup over the ordered
categories, defaulting to `"general"`. -/
def analyzeTopic (message : String) : String :=
  let lowerMessage := jsToLower message
  match topicTable.find? (fun tk => tk.2.any (fun kw => jsIncludes lowerMessage kw)) with
  | some tk => tk.1
  | none => "general"

/-- Positive keyword list of `DatasetBuilder.analyzeSentiment`. -/
def positiveWords : List String :=
  ["хорош", "отличн", "прекрасн", "замечательн", "спасиб", "понрав", "люб"]

/-- Negative keyword list of `DatasetBuilder.analyzeSentiment`. -/
def negativeWords : List String :=
  ["плох", "ужасн", "отвратительн", "ненавиж", "грустн", "зл", "разочарован"]

/-- `DatasetBuilder.analyzeSentiment`: +1 per positive keyword present, −1 per
negative keyword present; sign of the score picks the label. -/
def analyzeSentiment (message : String) : String :=
  let lowerMessage := jsToLower message
  let score : Int :=
    (positiveWords.countP (fun w => jsIncludes lowerMessage w) : Int) -
    (negativeWords.countP (fun w => jsIncludes lowerMessage w) : Int)
  if score > 0 then "positive" else if score < 0 then "negative" else "neutral"

/-- The `metadata` object stored inside a conversation record. -/
structure ConvMetadata where
  message_length : Nat
  response_length : Nat
  topic : String
  sentiment : String
deriving DecidableEq

/-- A record pushed onto `this.conversations` by `recordConversation`. -/
structure Conversation where
  timestamp : Nat
  user_message : String
  ai_response : String
  context : String
  metadata : ConvMetadata
deriving DecidableEq

/-- The caller-supplied `performance` object of `recordGameData`; fields may
be absent, which the source guards with `|| 0`. -/
structure Performance where
  accuracy : Option ℚ
  speed : Option ℚ
  consistency : Option ℚ
  focusTime : Option ℚ
deriving DecidableEq

/-- Model of the JS guard `x || 0` on an optional numeric field (for numbers,
the only falsy value is `0`, which the guard maps to `0` as well). -/
def orZero : Option ℚ → ℚ
  | none => 0
  | some v => v

/-- The `learning_metrics` object computed by `calculateLearningMetrics`. -/
structure LearningMetrics where
  accuracy : ℚ
  speed : ℚ
  consistency : ℚ
  improvement_rate : ℚ
  attention_span : ℚ
deriving DecidableEq

/-- A record pushed onto `this.gameData` by `recordGameData`; `decisions` is
an opaque caller-supplied payload, modelled as its serialized text. -/
structure GameSession where
  timestamp : Nat
  game_type : String
  performance : Performance
  decisions : String
  outcome : String
  learning_metrics : LearningMetrics
deriving DecidableEq

/-- The mutable state of a `DatasetBuilder` instance.  `userPreferences` is an
opaque JS object, modelled as an association list; `learningSessions` is
declared by the constructor and never touched again, exactly as in the
source; `maxStorage` is the configured storage ceiling (constructor default
`50 * 1024 * 1024`). -/
structure BuilderState where
  conversations : List Conversation
  gameData : List GameSession
  userPreferences : List (String × String)
  learningSessions : List GameSession
  maxStorage : Nat
deriving DecidableEq

/-- The state produced by `new DatasetBuilder()`. -/
def initialBuilder : BuilderState :=
  { conversations := [], gameData := [], userPreferences := [],
    learningSessions := [], maxStorage := 50 * 1024 * 1024 }

/-- JS `Math.min` on two (non-NaN) numbers. -/
def ratMin (a b : ℚ) : ℚ := if a ≤ b then a else b

/-- JS `Math.max` on two (non-NaN) numbers. -/
def ratMax (a b : ℚ) : ℚ := if a ≤ b then b else a

/-- Model of JS `arr.slice(-k)` for a nonnegative count `k`: the last `k`
elements — except that `slice(-0)` is `slice(0)`, the whole array. -/
def jsSliceLast (l : List α) (k : Nat) : List α :=
  if k = 0 then l else l.drop (l.length - k)

/-- `DatasetBuilder.calculateImprovementRate`: slope of the accuracies of the
(at most) five most recent already-stored game sessions.  The source reads
`session.learning_metrics?.accuracy || 0`; every stored session carries its
metrics, and `|| 0` fixes `0` (and absent values) to `0`, so the stored
accuracy is read back unchanged. -/
def calculateImprovementRate (gameData : List GameSession) : ℚ :=
  let recentSessions := jsSliceLast gameData 5
  if recentSessions.length < 2 then 0
  else
    let improvements := recentSessions.map (fun session => session.learning_metrics.accuracy)
    let totalImprovement := improvements.getLastD 0 - improvements.headD 0
    totalImprovement / ((improvements.length : ℚ) - 1)

/-- `DatasetBuilder.calculateAttentionSpan`. -/
def calculateAttentionSpan (performance : Performance) : ℚ :=
  ratMin 100 (orZero performance.focusTime / 60 * 100)

/-- `DatasetBuilder.calculateLearningMetrics` (reads `this.gameData` through
`calculateImprovementRate`, so the builder's current game list is passed in). -/
def calculateLearningMetrics (gameData : List GameSession) (performance : Performance) : LearningMetrics :=
  { accuracy := orZero performance.accuracy,
    speed := orZero performance.speed,
    consistency := orZero performance.consistency,
    improvement_rate := calculateImprovementRate gameData,
    attention_span := calculateAttentionSpan performance }

/-- The conversation record literal built inside `recordConversation`. -/
def buildConversation (timestamp : Nat) (userMessage aiResponse context : String) : Conversation :=
  { timestamp := timestamp,
    user_message := userMessage,
    ai_response := aiResponse,
    context := context,
    metadata :=
      { message_length := userMessage.length,
        response_length := aiResponse.length,
        topic := analyzeTopic userMessage,
        sentiment := analyzeSentiment userMessage } }

/-- The game-session record literal built inside `recordGameData` (its
`learning_metrics` are computed from the sessions stored so far, before the
push). -/
def buildGameSession (s : BuilderState) (timestamp : Nat) (gameType : String)
    (performance : Performance) (decisions outcome : String) : GameSession :=
  { timestamp := timestamp,
    game_type := gameType,
    performance := performance,
    decisions := decisions,
    outcome := outcome,
    learning_metrics := calculateLearningMetrics s.gameData performance }

/-- `DatasetBuilder.calculateExampleWeight`: base 1.0, ×1.2 for long messages,
×1.5 for technical/educational topics, ×0.7 for negative sentiment, capped
above by 2.0 (`Math.min(weight, 2.0)`). -/
def calculateExampleWeight (conversation : Conversation) : ℚ :=
  let w1 : ℚ := 1.0
  let w2 := if conversation.metadata.message_length > 50 then w1 * 1.2 else w1
  let w3 := if (["programming", "science", "technical"] : List String).contains conversation.metadata.topic
            then w2 * 1.5 else w2
  let w4 := if conversation.metadata.sentiment = "negative" then w3 * 0.7 else w3
  ratMin w4 2.0

/-- Rendering of a `ℚ` value inside serialized JSON.  The source serializes JS
numbers; this model prints integers exactly and non-integers as a fraction —
an approximation of decimal float printing that preserves the order of
magnitude of the byte count, which is all `getTotalDataSize` consumers use. -/
def ratToString (q : ℚ) : String :=
  if q.den = 1 then toString q.num else toString q.num ++ "/" ++ toString q.den

/-- JSON escaping of one character (the cases `JSON.stringify` escapes that
can occur in the texts involved). -/
def jsonEscapeChar (c : Char) : List Char :=
  if c = '"' then ['\\', '"']
  else if c = '\\' then ['\\', '\\']
  else if c = '\n' then ['\\', 'n']
  else [c]

/-- A JSON string literal: quoted, escaped. -/
def jsonString (s : String) : String :=
  "\"" ++ String.mk (s.data.flatMap jsonEscapeChar) ++ "\""

/-- Comma-joining of serialized array elements, as inside `JSON.stringify`. -/
def joinComma : List String → String
  | [] => ""
  | [x] => x
  | x :: y :: t => x ++ "," ++ joinComma (y :: t)

/-- Serialization of a conversation's `metadata` object. -/
def jsonOfMetadata (m : ConvMetadata) : String :=
  "\x7b\"message_length\":" ++ toString m.message_length ++
  ",\"response_length\":" ++ toString m.response_length ++
  ",\"topic\":" ++ jsonString m.topic ++
  ",\"sentiment\":" ++ jsonString m.sentiment ++ "\x7d"

/-- Serialization of one conversation record (field order as constructed). -/
def jsonOfConversation (c : Conversation) : String :=
  "\x7b\"timestamp\":" ++ toString c.timestamp ++
  ",\"user_message\":" ++ jsonString c.user_message ++
  ",\"ai_response\":" ++ jsonString c.ai_response ++
  ",\"context\":" ++ jsonString c.context ++
  ",\"metadata\":" ++ jsonOfMetadata c.metadata ++ "\x7d"

/-- Serialization of the caller-supplied `performance` object;
`JSON.stringify` drops absent fields. -/
def jsonOfPerformance (p : Performance) : String :=
  "\x7b" ++ joinComma (([p.accuracy.map (fun v => "\"accuracy\":" ++ ratToString v),
    p.speed.map (fun v => "\"speed\":" ++ ratToString v),
    p.consistency.map (fun v => "\"consistency\":" ++ ratToString v),
    p.focusTime.map (fun v => "\"focusTime\":" ++ ratToString v)]).filterMap id) ++ "\x7d"

/-- Serialization of a `learning_metrics` object. -/
def jsonOfMetrics (lm : LearningMetrics) : String :=
  "\x7b\"accuracy\":" ++ ratToString lm.accuracy ++
  ",\"speed\":" ++ ratToString lm.speed ++
  ",\"consistency\":" ++ ratToString lm.consistency ++
  ",\"improvement_rate\":" ++ ratToString lm.improvement_rate ++
  ",\"attention_span\":" ++ ratToString lm.attention_span ++ "\x7d"

/-- Serialization of one game-session record (field order as constructed). -/
def jsonOfGame (g : GameSession) : String :=
  "\x7b\"timestamp\":" ++ toString g.timestamp ++
  ",\"game_type\":" ++ jsonString g.game_type ++
  ",\"performance\":" ++ jsonOfPerformance g.performance ++
  ",\"decisions\":" ++ jsonString g.decisions ++
  ",\"outcome\":" ++ jsonString g.outcome ++
  ",\"learning_metrics\":" ++ jsonOfMetrics g.learning_metrics ++ "\x7d"

/-- `DatasetBuilder.getTotalDataSize`: the byte size of
`JSON.stringify({conversations, gameData})`. -/
def getTotalDataSize (s : BuilderState) : Nat :=
  strBytes ("\x7b\"conversations\":[" ++ joinComma (s.conversations.map jsonOfConversation) ++
    "],\"gameData\":[" ++ joinComma (s.gameData.map jsonOfGame) ++ "]\x7d")

/-- `DatasetBuilder.cleanupOldData`: keep the newest `Math.floor(0.8·n)`
records of each collection via `slice(-keep)` (and thereby everything when
the keep-count is `0`, because `slice(-0)` is the whole array). -/
def cleanupOldData (s : BuilderState) : BuilderState :=
  let conversationsToKeep := s.conversations.length * 4 / 5
  let gamesToKeep := s.gameData.length * 4 / 5
  { s with conversations := jsSliceLast s.conversations conversationsToKeep,
           gameData := jsSliceLast s.gameData gamesToKeep }

/-- `DatasetBuilder.checkStorageLimit`: one synchronous cleanup pass when the
estimated size exceeds the ceiling. -/
def checkStorageLimit (s : BuilderState) : BuilderState :=
  if getTotalDataSize s > s.maxStorage then cleanupOldData s else s

/-- The push performed by `recordConversation` before its capacity check. -/
def pushConversation (s : BuilderState) (timestamp : Nat)
    (userMessage aiResponse context : String) : BuilderState :=
  { s with conversations := s.conversations ++ [buildConversation timestamp userMessage aiResponse context] }

/-- `DatasetBuilder.recordConversation`: build the record, push it, then run
the storage-limit check. -/
def recordConversation (s : BuilderState) (timestamp : Nat)
    (userMessage aiResponse context : String) : BuilderState :=
  checkStorageLimit (pushConversation s timestamp userMessage aiResponse context)

/-- The push performed by `recordGameData` before its capacity check. -/
def pushGameData (s : BuilderState) (timestamp : Nat) (gameType : String)
    (performance : Performance) (decisions outcome : String) : BuilderState :=
  { s with gameData := s.gameData ++ [buildGameSession s timestamp gameType performance decisions outcome] }

/-- `DatasetBuilder.recordGameData`: build the session record (metrics from
the sessions stored so far), push it, then run the storage-limit check. -/
def recordGameData (s : BuilderState) (timestamp : Nat) (gameType : String)
    (performance : Performance) (decisions outcome : String) : BuilderState :=
  checkStorageLimit (pushGameData s timestamp gameType performance decisions outcome)

/-- A training example as assembled by `prepareTrainingData`. -/
structure TrainingExample where
  input : String
  output : String
  context : String
  weight : ℚ
deriving DecidableEq

/-- `DatasetBuilder.generateGameLearningOutput`. -/
def generateGameLearningOutput (gameSession : GameSession) : String :=
  let metrics := gameSession.learning_metrics
  "На основе игры \"" ++ gameSession.game_type ++ "\" я улучшил: точность " ++
  ratToString metrics.accuracy ++ "%, скорость " ++ ratToString metrics.speed ++
  "%, концентрация " ++ ratToString metrics.attention_span ++ "%"

/-- The training example derived from one conversation record. -/
def convToExample (conv : Conversation) : TrainingExample :=
  { input := conv.user_message, output := conv.ai_response,
    context := conv.context, weight := calculateExampleWeight conv }

/-- The training example derived from one game-session record; note its
weight is the session's raw `learning_metrics.accuracy`. -/
def gameToExample (game : GameSession) : TrainingExample :=
  { input := "Игра: " ++ game.game_type ++ ". Результат: " ++ game.outcome,
    output := generateGameLearningOutput game,
    context := "game_learning",
    weight := game.learning_metrics.accuracy }

/-- `DatasetBuilder.prepareTrainingData`: conversation examples first, then
game-session examples, in insertion order. -/
def prepareTrainingData (s : BuilderState) : List TrainingExample :=
  s.conversations.map convToExample ++ s.gameData.map gameToExample

/-- The `metadata` object of an exported dataset. -/
structure DatasetMetadata where
  total_examples : Nat
  export_date : String
  version : String
deriving DecidableEq

/-- The snapshot object built by `DatasetBuilder.exportDataset` (the source
then stringifies it and wraps it in an object URL; the serialize/parse pair
of `JSON.stringify`/`JSON.parse` is modelled as the identity on this
structure). -/
structure Dataset where
  conversations : List Conversation
  gameData : List GameSession
  userPreferences : List (String × String)
  metadata : DatasetMetadata
deriving DecidableEq

/-- `DatasetBuilder.exportDataset` (the `new Date().toISOString()` value is
passed in as `exportDate`). -/
def exportDataset (s : BuilderState) (exportDate : String) : Dataset :=
  { conversations := s.conversations,
    gameData := s.gameData,
    userPreferences := s.userPreferences,
    metadata :=
      { total_examples := s.conversations.length + s.gameData.length,
        export_date := exportDate,
        version := "1.0" } }

/-- A successfully parsed import payload; each field may be absent, which the
source guards with `|| []` / `|| {}`. -/
structure ImportedData where
  conversations : Option (List Conversation)
  gameData : Option (List GameSession)
  userPreferences : Option (List (String × String))
deriving DecidableEq

/-- The successful branch of `DatasetBuilder.importDataset`: wholesale
replacement of the three collections, with defaulting for absent fields. -/
def importDataset (s : BuilderState) (d : ImportedData) : BuilderState :=
  { s with conversations := d.conversations.getD [],
           gameData := d.gameData.getD [],
           userPreferences := d.userPreferences.getD [] }

/-- A well-formed snapshot parses back into an import payload carrying every
field (models `JSON.parse` applied to the string `exportDataset` produced). -/
def datasetAsImported (d : Dataset) : ImportedData :=
  { conversations := some d.conversations,
    gameData := some d.gameData,
    userPreferences := some d.userPreferences }

/-- A JS call outcome: a returned value or a thrown error. -/
inductive JsResult (α : Type) where
  | ok (v : α)
  | thrown (msg : String)
deriving DecidableEq

/-- One event at the foreign-memory boundary, as observed by the engine:
an `allocate_memory` call, a `free_memory` call, or an invocation of another
runtime export. -/
inductive FEvent where
  | alloc (ptr : Nat)
  | free (ptr : Nat)
  | call (fn : String)
deriving DecidableEq

/-- The per-model entry stored in `this.models[modelName]`. -/
structure ModelInfo where
  loaded : Bool
  size : Nat
deriving DecidableEq

/-- The mutable state of an `OllamaWebEngine` instance (`isRunning` is set by
the constructor and never touched again, exactly as in the source; the wasm
module is present exactly when `isInitialized` is true). -/
structure EngineSt where
  isInitialized : Bool
  isRunning : Bool
  currentModel : Option String
  models : List (String × ModelInfo)
deriving DecidableEq

/-- The state produced by `new OllamaWebEngine()`. -/
def initialEngine : EngineSt :=
  { isInitialized := false, isRunning := false, currentModel := none, models := [] }

/-- JS object-property assignment `models[name] = info`: replace in place if
the key exists, else append. -/
def setModel (ms : List (String × ModelInfo)) (name : String) (info : ModelInfo) :
    List (String × ModelInfo) :=
  if ms.any (fun p => p.1 = name) then
    ms.map (fun p => if p.1 = name then (name, info) else p)
  else ms ++ [(name, info)]

/-- Lookup in the model registry (`this.models[name]`). -/
def getModel (ms : List (String × ModelInfo)) (name : String) : Option ModelInfo :=
  (ms.find? (fun p => p.1 = name)).map (fun p => p.2)

/-- The result of one engine call: the state left behind, the JS-level
outcome, and the trace of foreign-memory events that occurred. -/
structure EngineOut (α : Type) where
  state : EngineSt
  result : JsResult α
  trace : List FEvent
deriving DecidableEq

/-- The host environment an `initialize()` call runs against: whether
streaming instantiation is available and whether the fetch/instantiate of
the wasm module succeeds. -/
structure InitEnv where
  streamingSupported : Bool
  instantiateOk : Bool
deriving DecidableEq

/-- The foreign runtime's behaviour during one `loadModel` call: the pointer
`allocate_memory` hands back, whether the transfer into wasm memory throws,
and the status code `load_model` returns. -/
structure LoadEnv where
  modelPtr : Nat
  copyThrows : Bool
  status : Int
deriving DecidableEq

/-- The foreign runtime's behaviour during one `generateResponse` call. A
`resultPtr` of `0` is the null pointer the source treats as failure;
`resultText` is the C string found at a nonzero `resultPtr`. -/
structure GenEnv where
  promptPtr : Nat
  copyThrows : Bool
  copyError : String
  resultPtr : Nat
  resultText : String
deriving DecidableEq

/-- The generation options object with its destructuring defaults
`{maxTokens = 500, temperature = 0.7, topP = 0.9}`. -/
structure GenOptions where
  maxTokens : Nat
  temperature : ℚ
  topP : ℚ
deriving DecidableEq

/-- The default options produced by `generateResponse({})`. -/
def defaultGenOptions : GenOptions :=
  { maxTokens := 500, temperature := 7/10, topP := 9/10 }

/-- The foreign runtime's behaviour during one `trainOnData` call. -/
structure TrainEnv where
  trainingPtr : Nat
  copyThrows : Bool
  status : Int
deriving DecidableEq

/-- The foreign runtime's behaviour during one `saveModel` call: the exported
blob's pointer and size, and whether the IndexedDB persistence succeeds. -/
structure SaveEnv where
  modelSize : Nat
  modelPtr : Nat
  persistOk : Bool
deriving DecidableEq

/-- `OllamaWebEngine.initialize`: missing streaming support or a failed
fetch/instantiate (the latter caught) leave the state untouched and return
`false`; success flips `isInitialized`.  No foreign-memory traffic occurs. -/
def initEngine (s : EngineSt) (env : InitEnv) : EngineOut Bool :=
  if env.streamingSupported = false then ⟨s, .ok false, []⟩
  else if env.instantiateOk then ⟨{ s with isInitialized := true }, .ok true, []⟩
  else ⟨s, .ok false, []⟩

/-- `OllamaWebEngine.loadModel`: throws when uninitialized; otherwise
allocates a buffer for the blob, copies it in, and calls `load_model`.  On
status `0` it records the model as current; any thrown error (transfer
failure or the nonzero-status throw) is caught and converted to `return
false`, leaving the state untouched.  The model buffer is never freed on any
path. -/
def loadModel (s : EngineSt) (modelName : String) (dataLen : Nat) (env : LoadEnv) :
    EngineOut Bool :=
  if s.isInitialized = false then ⟨s, .thrown "Движок не инициализирован", []⟩
  else if env.copyThrows then ⟨s, .ok false, [.alloc env.modelPtr]⟩
  else if env.status = 0 then
    ⟨{ s with currentModel := some modelName,
              models := setModel s.models modelName ⟨true, dataLen⟩ },
     .ok true, [.alloc env.modelPtr, .call "load_model"]⟩
  else ⟨s, .ok false, [.alloc env.modelPtr, .call "load_model"]⟩

/-- `OllamaWebEngine.generateResponse`: throws when no model is loaded (before
any foreign traffic); otherwise allocates the prompt buffer, calls
`generate_response`, and on a nonzero result pointer reads the text and frees
the response then the prompt buffer.  A thrown transfer failure and the
null-result throw are rethrown to the caller; on those paths the prompt
buffer is not freed. -/
def generateResponse (s : EngineSt) (prompt : String) (options : GenOptions) (env : GenEnv) :
    EngineOut String :=
  if s.currentModel = none then ⟨s, .thrown "Модель не загружена", []⟩
  else if env.copyThrows then ⟨s, .thrown env.copyError, [.alloc env.promptPtr]⟩
  else if env.resultPtr = 0 then
    ⟨s, .thrown "Ошибка генерации ответа", [.alloc env.promptPtr, .call "generate_response"]⟩
  else
    ⟨s, .ok env.resultText,
     [.alloc env.promptPtr, .call "generate_response", .free env.resultPtr, .free env.promptPtr]⟩

/-- `OllamaWebEngine.trainOnData`: throws when no model is loaded; otherwise
allocates the serialized batch, calls `train_model`, frees the buffer, and
only then inspects the status — a nonzero status throws, which the catch
turns into `return false`.  A thrown transfer failure is also caught into
`return false`, leaking the buffer on that path. -/
def trainOnData (s : EngineSt) (dataLen : Nat) (epochs : Nat) (env : TrainEnv) :
    EngineOut Bool :=
  if s.currentModel = none then ⟨s, .thrown "Модель не загружена", []⟩
  else if env.copyThrows then ⟨s, .ok false, [.alloc env.trainingPtr]⟩
  else if env.status = 0 then
    ⟨s, .ok true, [.alloc env.trainingPtr, .call "train_model", .free env.trainingPtr]⟩
  else ⟨s, .ok false, [.alloc env.trainingPtr, .call "train_model", .free env.trainingPtr]⟩

/-- `OllamaWebEngine.saveModel`: throws when no model is loaded; otherwise
queries the blob size, calls `export_model`, persists the bytes, and frees
the exported pointer only after a successful persistence — a failed
persistence is caught into `return false` with the pointer still allocated. -/
def saveModel (s : EngineSt) (modelName : String) (env : SaveEnv) : EngineOut Bool :=
  if s.currentModel = none then ⟨s, .thrown "Модель не загружена", []⟩
  else if env.persistOk then
    ⟨s, .ok true, [.call "get_model_size", .call "export_model", .free env.modelPtr]⟩
  else ⟨s, .ok false, [.call "get_model_size", .call "export_model"]⟩

/-- Did a boolean-returning engine call fail (thrown, or resolved `false`)? -/
def failedB : JsResult Bool → Bool
  | .ok b => !b
  | .thrown _ => true

/-- Did `generateResponse` fail (it signals failure only by throwing)? -/
def failedS : JsResult String → Bool
  | .ok _ => false
  | .thrown _ => true

/-- One externally triggered engine call together with the host/runtime
behaviour it encounters. -/
inductive Call where
  | init (env : InitEnv)
  | load (modelName : String) (dataLen : Nat) (env : LoadEnv)
  | gen (prompt : String) (options : GenOptions) (env : GenEnv)
  | train (dataLen : Nat) (epochs : Nat) (env : TrainEnv)
  | save (modelName : String) (env : SaveEnv)
deriving DecidableEq

/-- The state transition and failure flag of one engine call. -/
def stepEngine (s : EngineSt) : Call → EngineSt × Bool
  | .init env => let o := initEngine s env; (o.state, failedB o.result)
  | .load name len env => let o := loadModel s name len env; (o.state, failedB o.result)
  | .gen prompt opts env => let o := generateResponse s prompt opts env; (o.state, failedS o.result)
  | .train len epochs env => let o := trainOnData s len epochs env; (o.state, failedB o.result)
  | .save name env => let o := saveModel s name env; (o.state, failedB o.result)

/-- The position of a state along `Uninitialized → Ready → ModelLoaded`. -/
def engineRank (s : EngineSt) : Nat :=
  if s.isInitialized = false then 0 else if s.currentModel = none then 1 else 2

/-- States reachable from the constructor: a loaded model implies an
initialized engine. -/
def engineWF (s : EngineSt) : Prop :=
  s.isInitialized = false → s.currentModel = none

instance (s : EngineSt) : Decidable (engineWF s) := by
  unfold engineWF; infer_instance

/-- How many times `allocate_memory` returned pointer `p` in a trace. -/
def allocCount : List FEvent → Nat → Nat
  | [], _ => 0
  | .alloc q :: t, p => (if q = p then 1 else 0) + allocCount t p
  | _ :: t, p => allocCount t p

/-- How many times pointer `p` was freed in a trace. -/
def freeCount : List FEvent → Nat → Nat
  | [], _ => 0
  | .free q :: t, p => (if q = p then 1 else 0) + freeCount t p
  | _ :: t, p => freeCount t p

/-- No allocation is leaked: every pointer handed out by `allocate_memory`
is freed at least as many times as it was allocated. -/
def leakFree (t : List FEvent) : Bool :=
  t.all (fun e => match e with
    | .alloc p => decide (allocCount t p ≤ freeCount t p)
    | _ => true)

/-- The weighting formula in the specification's words: start at 1.0,
multiply by 1.2 if the user text is longer than 50, by 1.5 if the classified
topic is one of programming/science/technical, by 0.7 if the classified
sentiment is negative, then clamp to [0, 2].  Stated independently of
`calculateExampleWeight` to compare code against specification. -/
def claimedWeight (userText : String) : ℚ :=
  ratMin 2 (ratMax 0 ((1 : ℚ) *
    (if userText.length > 50 then 1.2 else 1) *
    (if (["programming", "science", "technical"] : List String).contains (analyzeTopic userText) then 1.5 else 1) *
    (if analyzeSentiment userText = "negative" then 0.7 else 1)))

/-- The `n` most recent elements of a chronological list. -/
def lastN (n : Nat) (l : List α) : List α :=
  l.drop (l.length - n)

/-- The improvement-rate formula in the specification's words: the slope
`(last − first) / (count − 1)` over the at most five most recent prior
accuracy values, and `0` when fewer than two prior values exist. -/
def claimedSlope (accs : List ℚ) : ℚ :=
  let r := lastN 5 accs
  if r.length < 2 then 0
  else (r.getLastD 0 - r.headD 0) / ((r.length : ℚ) - 1)

/-- A 60-character message (9 letters of "компьютер" plus 51 padding marks)
whose only keyword hit is the technical-topic keyword "компьютер". -/
def techMessage : String := "компьютер!!!!!!!!!!!!!!!!!!!!!!!!!!!!!!!!!!!!!!!!!!!!!!!!!!!"

/-- A `performance` payload whose accuracy is `a` (focus time 30 s). -/
def mkPerf (a : ℚ) : Performance := ⟨some a, some 1, some 1, some 30⟩

/-- Store obtained by recording one game session with accuracy 50. -/
def c3store : BuilderState :=
  recordGameData initialBuilder 0 "викторина" (mkPerf 50) "решения" "выиграл"

/-- Store after five consecutive session records with accuracies
10, 20, 30, 40, 50. -/
def c9st5 : BuilderState :=
  recordGameData (recordGameData (recordGameData (recordGameData (recordGameData
    initialBuilder 0 "викторина" (mkPerf 10) "решения" "завершена")
    1 "викторина" (mkPerf 20) "решения" "завершена")
    2 "викторина" (mkPerf 30) "решения" "завершена")
    3 "викторина" (mkPerf 40) "решения" "завершена")
    4 "викторина" (mkPerf 50) "решения" "завершена"

/-- A builder whose configured ceiling is 10 bytes (the ceiling is a
configurable instance field with default 50 MiB; a tiny ceiling makes the
violation checkable by evaluation — with the default ceiling the same
violation needs records totalling over 50 MiB). -/
def c1base : BuilderState := { initialBuilder with maxStorage := 10 }

/-- Two recorded conversations against the 10-byte ceiling: each insert
triggers the capacity check, eviction runs, yet the store stays oversized. -/
def c1cexSt : BuilderState :=
  recordConversation (recordConversation c1base 0 "привет" "здравствуйте" "чат")
    1 "как дела" "нормально" "чат"

/-- A store holding exactly one conversation record. -/
def c6cexSt : BuilderState :=
  { initialBuilder with conversations := [buildConversation 0 "привет" "здравствуйте" "чат"] }

/-- A store holding two conversation records (keep-count 1). -/
def c6wSt : BuilderState :=
  { initialBuilder with conversations :=
      [buildConversation 0 "привет" "здравствуйте" "чат",
       buildConversation 1 "как дела" "нормально" "чат"] }

/-- An engine that has been initialized but has no model loaded (Ready). -/
def readyEngine : EngineSt :=
  { isInitialized := true, isRunning := false, currentModel := none, models := [] }

/-- An engine with the model "tiny-llama" loaded. -/
def loadedEngine : EngineSt :=
  { isInitialized := true, isRunning := false, currentModel := some "tiny-llama",
    models := [("tiny-llama", ⟨true, 4⟩)] }

/-- A generation run in which the runtime hands out pointer 5 for the prompt
and then returns the null result pointer. -/
def nullGenEnv : GenEnv :=
  { promptPtr := 5, copyThrows := false, copyError := "", resultPtr := 0, resultText := "" }

/-- A successful generation run: prompt buffer at 5, response at 9. -/
def okGenEnv : GenEnv :=
  { promptPtr := 5, copyThrows := false, copyError := "", resultPtr := 9, resultText := "Привет!" }

/-- A load attempt the runtime rejects with status code 3. -/
def loadEnv3 : LoadEnv := { modelPtr := 1, copyThrows := false, status := 3 }

/-- A load attempt the runtime rejects with status code 7. -/
def loadEnv7 : LoadEnv := { modelPtr := 1, copyThrows := false, status := 7 }

/-- A training run the runtime rejects with status code 2. -/
def trainEnv2 : TrainEnv := { trainingPtr := 4, copyThrows := false, status := 2 }

theorem calculateExampleWeight_bounds (c : Conversation) :
    0 ≤ calculateExampleWeight c ∧ calculateExampleWeight c ≤ 2 := by
  unfold calculateExampleWeight
  split_ifs <;> constructor <;> norm_num [ratMin]

/-- C5: the weight attributed to the record stored by `recordConversation`
equals the specification's formula — base 1.0, ×1.2 for user text longer
than 50, ×1.5 for a programming/science/technical topic, ×0.7 for negative
sentiment, clamped to [0, 2] — and on a 60-character technical-topic,
non-negative message it is exactly 1.8. -/
theorem c5_weight_formula :
    (∀ (ts : Nat) (u a c : String),
      calculateExampleWeight (buildConversation ts u a c) = claimedWeight u) ∧
    techMessage.length = 60 ∧
    analyzeTopic techMessage = "technical" ∧
    analyzeSentiment techMessage = "neutral" ∧
    calculateExampleWeight (buildConversation 0 techMessage "ответ" "чат") = 1.8 := by
  refine ⟨?_, ?_, ?_, ?_, ?_⟩
  · intro ts u a c
    unfold calculateExampleWeight claimedWeight buildConversation
    simp only
    split_ifs <;> norm_num [ratMin, ratMax]
  · with_unfolding_all rfl
  · with_unfolding_all rfl
  · with_unfolding_all rfl
  · with_unfolding_all rfl

/-- C3 (amended): every training example derived from a conversation record
has weight in [0, 2]; an example derived from a game-session record carries
that session's raw `learning_metrics.accuracy` as weight, with no clamping. -/
theorem c3_weight_ranges (s : BuilderState) (ex : TrainingExample)
    (hex : ex ∈ prepareTrainingData s) :
    (0 ≤ ex.weight ∧ ex.weight ≤ 2) ∨
    ∃ g ∈ s.gameData, ex = gameToExample g ∧ ex.weight = g.learning_metrics.accuracy := by
  unfold prepareTrainingData at hex
  rcases List.mem_append.1 hex with h | h
  · rcases List.mem_map.1 h with ⟨c, _, rfl⟩
    exact Or.inl (calculateExampleWeight_bounds c)
  · rcases List.mem_map.1 h with ⟨g, hg, rfl⟩
    exact Or.inr ⟨g, hg, rfl, rfl⟩

/-- C3 witness: `c3_weight_ranges` applied to the single conversation example
of a concrete store. -/
theorem c3_weight_ranges_witness :
    convToExample (buildConversation 0 "привет" "здравствуйте" "чат") ∈ prepareTrainingData c6cexSt ∧
    ((0 ≤ (convToExample (buildConversation 0 "привет" "здравствуйте" "чат")).weight ∧
      (convToExample (buildConversation 0 "привет" "здравствуйте" "чат")).weight ≤ 2) ∨
     ∃ g ∈ c6cexSt.gameData,
       convToExample (buildConversation 0 "привет" "здравствуйте" "чат") = gameToExample g ∧
       (convToExample (buildConversation 0 "привет" "здравствуйте" "чат")).weight = g.learning_metrics.accuracy) :=
  ⟨by with_unfolding_all decide,
   c3_weight_ranges c6cexSt (convToExample (buildConversation 0 "привет" "здравствуйте" "чат"))
     (by with_unfolding_all decide)⟩

/-- C3 counterexample: recording a game session with accuracy 50 makes
`prepareTrainingData` emit a training example of weight 50, far outside
[0, 2] — the claim that every emitted weight lies in [0, 2] is false. -/
theorem c3_counterexample :
    (prepareTrainingData c3store).map TrainingExample.weight = [50] ∧
    ¬ ((50 : ℚ) ≤ 2) := by
  constructor
  · with_unfolding_all rfl
  · norm_num

theorem keepCount_le (n : Nat) : n * 4 / 5 ≤ n := by
  calc n * 4 / 5 ≤ n * 5 / 5 := Nat.div_le_div_right (by omega)
  _ = n := Nat.mul_div_cancel n (by norm_num)

theorem jsSliceLast_eq_drop (l : List α) (k : Nat) :
    jsSliceLast l k = l.drop (if k = 0 then 0 else l.length - k) := by
  unfold jsSliceLast
  split_ifs <;> simp

/-- C6 (amended): eviction keeps exactly the newest `Math.floor(0.8·n)`
records of each collection, as the suffix of the insertion-ordered list
(hence survivors keep their relative order) — except that a keep-count of
`0` (a collection of at most one record) keeps the whole collection, because
`slice(-0)` is the whole array. -/
theorem c6_eviction (s : BuilderState) :
    ((cleanupOldData s).conversations =
      s.conversations.drop (if s.conversations.length * 4 / 5 = 0 then 0
        else s.conversations.length - s.conversations.length * 4 / 5)) ∧
    (1 ≤ s.conversations.length * 4 / 5 →
      (cleanupOldData s).conversations.length = s.conversations.length * 4 / 5) ∧
    ((cleanupOldData s).gameData =
      s.gameData.drop (if s.gameData.length * 4 / 5 = 0 then 0
        else s.gameData.length - s.gameData.length * 4 / 5)) ∧
    (1 ≤ s.gameData.length * 4 / 5 →
      (cleanupOldData s).gameData.length = s.gameData.length * 4 / 5) := by
  have hc : (cleanupOldData s).conversations =
      jsSliceLast s.conversations (s.conversations.length * 4 / 5) := rfl
  have hg : (cleanupOldData s).gameData =
      jsSliceLast s.gameData (s.gameData.length * 4 / 5) := rfl
  refine ⟨?_, ?_, ?_, ?_⟩
  · rw [hc, jsSliceLast_eq_drop]
  · intro h
    rw [hc, jsSliceLast_eq_drop, if_neg (by omega), List.length_drop]
    have := keepCount_le s.conversations.length
    omega
  · rw [hg, jsSliceLast_eq_drop]
  · intro h
    rw [hg, jsSliceLast_eq_drop, if_neg (by omega), List.length_drop]
    have := keepCount_le s.gameData.length
    omega

/-- C6 witness: `c6_eviction` on a two-record store — the newest
`floor(0.8·2) = 1` record survives. -/
theorem c6_eviction_witness :
    (cleanupOldData c6wSt).conversations = c6wSt.conversations.drop 1 ∧
    (cleanupOldData c6wSt).conversations.length = 1 := by
  have h := c6_eviction c6wSt
  refine ⟨?_, ?_⟩
  · have h1 := h.1
    rwa [show (if c6wSt.conversations.length * 4 / 5 = 0 then 0
      else c6wSt.conversations.length - c6wSt.conversations.length * 4 / 5) = 1
      from by with_unfolding_all decide] at h1
  · have h2 := h.2.1 (by with_unfolding_all decide)
    rwa [show c6wSt.conversations.length * 4 / 5 = 1 from by with_unfolding_all decide] at h2

/-- C6 counterexample: on a collection holding a single record the claimed
keep-count is `floor(0.8·1) = 0`, yet eviction keeps the record
(`slice(-0)` returns the whole array), so the survivor count differs from
`floor(0.8·n)`. -/
theorem c6_counterexample :
    (cleanupOldData c6cexSt).conversations.length = 1 ∧
    c6cexSt.conversations.length * 4 / 5 = 0 ∧
    ¬ ((cleanupOldData c6cexSt).conversations.length =
        c6cexSt.conversations.length * 4 / 5) := by
  refine ⟨?_, ?_, ?_⟩ <;> with_unfolding_all decide

/-- C8: importing the snapshot produced by `exportDataset` reproduces the
exported conversations, sessions and user preferences in any target store —
the snapshot shape `{conversations, gameData, userPreferences, metadata}`
round-trips through export/import unchanged. -/
theorem c8_roundtrip (s target : BuilderState) (exportDate : String) :
    (importDataset target (datasetAsImported (exportDataset s exportDate))).conversations
        = s.conversations ∧
    (importDataset target (datasetAsImported (exportDataset s exportDate))).gameData
        = s.gameData ∧
    (importDataset target (datasetAsImported (exportDataset s exportDate))).userPreferences
        = s.userPreferences :=
  ⟨rfl, rfl, rfl⟩

/-- C9: the `learning_metrics.improvement_rate` stored by `recordGameData`
(computed while building the pushed record) equals the specification's
slope over the accuracies of the at most five most recent prior session
records — `(last − first)/(count − 1)`, and `0` with fewer than two priors —
and after five sessions with accuracies 10, 20, 30, 40, 50 the next record
stores improvement rate `(50 − 10)/4 = 10`. -/
theorem c9_improvement_rate :
    (∀ (s : BuilderState) (ts : Nat) (kind : String) (perf : Performance)
       (decisions outcome : String),
      recordGameData s ts kind perf decisions outcome =
        checkStorageLimit { s with gameData :=
          s.gameData ++ [buildGameSession s ts kind perf decisions outcome] } ∧
      (buildGameSession s ts kind perf decisions outcome).learning_metrics.improvement_rate =
        claimedSlope (s.gameData.map (fun g => g.learning_metrics.accuracy))) ∧
    (c9st5.gameData.map (fun g => g.learning_metrics.accuracy) = [10, 20, 30, 40, 50] ∧
     (buildGameSession c9st5 5 "викторина" (mkPerf 60) "решения" "завершена").learning_metrics.improvement_rate = 10) := by
  constructor
  · intro s ts kind perf decisions outcome
    refine ⟨rfl, ?_⟩
    show calculateImprovementRate s.gameData = _
    unfold calculateImprovementRate claimedSlope lastN jsSliceLast
    norm_num [List.map_drop, List.length_map, List.length_drop]
  · constructor
    · with_unfolding_all rfl
    · with_unfolding_all rfl

theorem strBytes_foldr_init (l : List Char) (n : Nat) :
    l.foldr (fun c m => charUtf8Size c + m) n =
      l.foldr (fun c m => charUtf8Size c + m) 0 + n := by
  induction l with
  | nil => simp
  | cons c t ih => simp only [List.foldr_cons, ih]; omega

theorem strBytes_append (a b : String) : strBytes (a ++ b) = strBytes a + strBytes b := by
  unfold strBytes
  rw [String.data_append, List.foldr_append, strBytes_foldr_init]

theorem strBytes_joinComma_cons_le (x : String) (t : List String) :
    strBytes (joinComma t) ≤ strBytes (joinComma (x :: t)) := by
  cases t with
  | nil => exact Nat.zero_le _
  | cons y t' =>
    show strBytes (joinComma (y :: t')) ≤ strBytes (x ++ "," ++ joinComma (y :: t'))
    rw [strBytes_append, strBytes_append]
    omega

theorem strBytes_joinComma_drop_le (xs : List String) (j : Nat) :
    strBytes (joinComma (xs.drop j)) ≤ strBytes (joinComma xs) := by
  induction xs generalizing j with
  | nil => simp
  | cons x t ih =>
    cases j with
    | zero => exact Nat.le_refl _
    | succ j' =>
      calc strBytes (joinComma ((x :: t).drop (j' + 1)))
          = strBytes (joinComma (t.drop j')) := rfl
        _ ≤ strBytes (joinComma t) := ih j'
        _ ≤ strBytes (joinComma (x :: t)) := strBytes_joinComma_cons_le x t

theorem getTotalDataSize_cleanup_le (s : BuilderState) :
    getTotalDataSize (cleanupOldData s) ≤ getTotalDataSize s := by
  have hc : (cleanupOldData s).conversations =
      s.conversations.drop (if s.conversations.length * 4 / 5 = 0 then 0
        else s.conversations.length - s.conversations.length * 4 / 5) := by
    rw [show (cleanupOldData s).conversations =
        jsSliceLast s.conversations (s.conversations.length * 4 / 5) from rfl,
      jsSliceLast_eq_drop]
  have hg : (cleanupOldData s).gameData =
      s.gameData.drop (if s.gameData.length * 4 / 5 = 0 then 0
        else s.gameData.length - s.gameData.length * 4 / 5) := by
    rw [show (cleanupOldData s).gameData =
        jsSliceLast s.gameData (s.gameData.length * 4 / 5) from rfl,
      jsSliceLast_eq_drop]
  unfold getTotalDataSize
  rw [hc, hg]
  simp only [strBytes_append, List.map_drop]
  have h1 := strBytes_joinComma_drop_le (s.conversations.map jsonOfConversation)
    (if s.conversations.length * 4 / 5 = 0 then 0
      else s.conversations.length - s.conversations.length * 4 / 5)
  have h2 := strBytes_joinComma_drop_le (s.gameData.map jsonOfGame)
    (if s.gameData.length * 4 / 5 = 0 then 0
      else s.gameData.length - s.gameData.length * 4 / 5)
  omega

/-- C1 (amended): every `recordConversation` insert triggers the capacity
check synchronously — when the pushed state exceeds the configured ceiling
one eviction pass runs, otherwise nothing is evicted — and the pass never
increases the estimated size; but a single pass does not guarantee the size
drops below the ceiling (see the counterexample). -/
theorem c1_capacity (s : BuilderState) (ts : Nat) (u a c : String) :
    (getTotalDataSize (pushConversation s ts u a c) > s.maxStorage →
      recordConversation s ts u a c = cleanupOldData (pushConversation s ts u a c)) ∧
    (getTotalDataSize (pushConversation s ts u a c) ≤ s.maxStorage →
      recordConversation s ts u a c = pushConversation s ts u a c) ∧
    getTotalDataSize (recordConversation s ts u a c) ≤
      getTotalDataSize (pushConversation s ts u a c) := by
  have hms : (pushConversation s ts u a c).maxStorage = s.maxStorage := rfl
  unfold recordConversation checkStorageLimit
  split_ifs with h
  · rw [hms] at h
    exact ⟨fun _ => rfl, fun hle => absurd h (by omega), getTotalDataSize_cleanup_le _⟩
  · rw [hms] at h
    exact ⟨fun hgt => absurd hgt (by omega), fun _ => rfl, Nat.le_refl _⟩

/-- C1 witness: `c1_capacity` on a store with a 10-byte ceiling — the insert
exceeds the ceiling, so the eviction pass runs synchronously. -/
theorem c1_capacity_witness :
    getTotalDataSize (pushConversation c1base 0 "привет" "здравствуйте" "чат") > c1base.maxStorage ∧
    recordConversation c1base 0 "привет" "здравствуйте" "чат" =
      cleanupOldData (pushConversation c1base 0 "привет" "здравствуйте" "чат") :=
  ⟨by with_unfolding_all decide,
   (c1_capacity c1base 0 "привет" "здравствуйте" "чат").1 (by with_unfolding_all decide)⟩

/-- C1 counterexample: after two `recordConversation` calls against a
10-byte ceiling the estimated size still exceeds the ceiling even though the
capacity check (and its eviction pass, which removed the older of the two
records) ran after every insert — so "the estimated size never exceeds the
configured ceiling after checkCapacity() returns" is false.  (With the
default 50 MiB ceiling the same failure needs records totalling over
50 MiB: one eviction pass keeps 80% of the records, and a store holding a
single oversized record evicts nothing at all.) -/
theorem c1_counterexample :
    getTotalDataSize c1cexSt > c1cexSt.maxStorage ∧
    c1cexSt.conversations.length = 1 := by
  constructor <;> with_unfolding_all decide

/-- C4: under any engine call with any host/runtime behaviour, a reachable
state's position along Uninitialized → Ready → ModelLoaded never decreases
and advances by at most one step, a failed call leaves the state exactly
where it was, and calling `generateResponse` while Ready (initialized, no
model loaded) fails with the model-not-loaded error before any
foreign-memory traffic. -/
theorem c4_state_machine :
    (∀ (s : EngineSt) (c : Call), engineWF s →
      engineWF (stepEngine s c).1 ∧
      engineRank s ≤ engineRank (stepEngine s c).1 ∧
      engineRank (stepEngine s c).1 ≤ engineRank s + 1 ∧
      ((stepEngine s c).2 = true → (stepEngine s c).1 = s)) ∧
    (∀ (s : EngineSt) (prompt : String) (options : GenOptions) (env : GenEnv),
      s.isInitialized = true → s.currentModel = none →
      generateResponse s prompt options env =
        ⟨s, .thrown "Модель не загружена", []⟩) := by
  constructor
  · intro s c hwf
    unfold engineWF at hwf
    cases c <;>
      simp only [stepEngine, initEngine, loadModel, generateResponse, trainOnData, saveModel] <;>
      split_ifs <;>
      simp_all [engineRank, engineWF, failedB, failedS] <;>
      split_ifs <;> simp_all
  · intro s prompt options env hinit hnone
    unfold generateResponse
    rw [if_pos hnone]

/-- C4 witness: `c4_state_machine` at the Ready engine and a generate call
against a concrete runtime. -/
theorem c4_state_machine_witness :
    engineWF readyEngine ∧
    engineRank readyEngine ≤ engineRank (stepEngine readyEngine (.gen "привет" defaultGenOptions okGenEnv)).1 ∧
    generateResponse readyEngine "привет" defaultGenOptions okGenEnv =
      ⟨readyEngine, .thrown "Модель не загружена", []⟩ :=
  ⟨by decide,
   (c4_state_machine.1 readyEngine (.gen "привет" defaultGenOptions okGenEnv) (by decide)).2.1,
   c4_state_machine.2 readyEngine "привет" defaultGenOptions okGenEnv (by decide) (by decide)⟩

/-- C2 (amended): on paths where the transfer into foreign memory succeeds,
`trainOnData` frees its buffer exactly once whether training succeeds or
fails, `generateResponse` frees both buffers whenever the runtime returns a
nonzero result pointer, and `saveModel` allocates nothing through
`allocate_memory`; but the pairing is not enforced on every exit path —
`generateResponse` leaks the prompt buffer on a null result pointer (see the
counterexample), both `generateResponse` and `trainOnData` leak their buffer
if the transfer throws, `loadModel` never frees the model buffer, and
`saveModel` skips the free of the exported blob when persistence fails. -/
theorem c2_scoped_release :
    (∀ (s : EngineSt) (prompt : String) (options : GenOptions) (env : GenEnv),
      env.copyThrows = false → env.resultPtr ≠ 0 →
      leakFree (generateResponse s prompt options env).trace = true) ∧
    (∀ (s : EngineSt) (dataLen epochs : Nat) (env : TrainEnv),
      env.copyThrows = false →
      leakFree (trainOnData s dataLen epochs env).trace = true) ∧
    (∀ (s : EngineSt) (modelName : String) (env : SaveEnv),
      leakFree (saveModel s modelName env).trace = true) := by
  refine ⟨?_, ?_, ?_⟩
  · intro s prompt options env hcopy hptr
    unfold generateResponse
    split_ifs <;> simp_all [leakFree, allocCount, freeCount]
  · intro s dataLen epochs env hcopy
    unfold trainOnData
    split_ifs <;> simp_all [leakFree, allocCount, freeCount]
  · intro s modelName env
    unfold saveModel
    split_ifs <;> simp_all [leakFree, allocCount, freeCount]

/-- C2 witness: `c2_scoped_release` on concrete successful generation and
failed training runs against a loaded engine. -/
theorem c2_scoped_release_witness :
    leakFree (generateResponse loadedEngine "привет" defaultGenOptions okGenEnv).trace = true ∧
    leakFree (trainOnData loadedEngine 64 1 trainEnv2).trace = true :=
  ⟨c2_scoped_release.1 loadedEngine "привет" defaultGenOptions okGenEnv (by decide) (by decide),
   c2_scoped_release.2.1 loadedEngine 64 1 trainEnv2 (by decide)⟩

/-- C2 counterexample: when the runtime returns a null result pointer,
`generateResponse` rethrows after allocating the prompt buffer and never
frees it — the trace ends with an allocation that has no matching free, so
"every allocate is paired with exactly one free along all exit paths,
including error paths" is false. -/
theorem c2_counterexample :
    (generateResponse loadedEngine "привет" defaultGenOptions nullGenEnv).trace =
      [.alloc 5, .call "generate_response"] ∧
    leakFree (generateResponse loadedEngine "привет" defaultGenOptions nullGenEnv).trace = false := by
  constructor <;> decide

/-- C7 (amended): a foreign-call failure is never state-corrupting and never
goes unnoticed, but the specific status code is not surfaced to the caller:
`loadModel`, `trainOnData` and `saveModel` catch the failure and resolve to
plain `false` (the code only reaches the console log), while
`generateResponse` rethrows its error; on a failed `loadModel` the state —
in particular Ready — is left exactly as it was. -/
theorem c7_failure_surfacing :
    (∀ (s : EngineSt) (modelName : String) (dataLen : Nat) (env : LoadEnv),
      s.isInitialized = true → (env.copyThrows = true ∨ env.status ≠ 0) →
      (loadModel s modelName dataLen env).result = .ok false ∧
      (loadModel s modelName dataLen env).state = s) ∧
    (∀ (s : EngineSt) (dataLen epochs : Nat) (env : TrainEnv),
      s.currentModel ≠ none → (env.copyThrows = true ∨ env.status ≠ 0) →
      (trainOnData s dataLen epochs env).result = .ok false ∧
      (trainOnData s dataLen epochs env).state = s) ∧
    (∀ (s : EngineSt) (prompt : String) (options : GenOptions) (env : GenEnv),
      s.currentModel ≠ none → env.copyThrows = false → env.resultPtr = 0 →
      (generateResponse s prompt options env).result = .thrown "Ошибка генерации ответа" ∧
      (generateResponse s prompt options env).state = s) ∧
    (∀ (s : EngineSt) (modelName : String) (env : SaveEnv),
      s.currentModel ≠ none → env.persistOk = false →
      (saveModel s modelName env).result = .ok false ∧
      (saveModel s modelName env).state = s) := by
  refine ⟨?_, ?_, ?_, ?_⟩
  · intro s modelName dataLen env hinit hfail
    unfold loadModel
    rcases hfail with h | h <;> split_ifs <;> simp_all
  · intro s dataLen epochs env hm hfail
    unfold trainOnData
    rcases hfail with h | h <;> split_ifs <;> simp_all
  · intro s prompt options env hm hcopy hptr
    unfold generateResponse
    split_ifs <;> simp_all
  · intro s modelName env hm hpersist
    unfold saveModel
    split_ifs <;> simp_all

/-- C7 witness: `c7_failure_surfacing` on a Ready engine whose runtime
rejects the load with status 3. -/
theorem c7_failure_surfacing_witness :
    (loadModel readyEngine "tiny-llama" 4 loadEnv3).result = .ok false ∧
    (loadModel readyEngine "tiny-llama" 4 loadEnv3).state = readyEngine :=
  c7_failure_surfacing.1 readyEngine "tiny-llama" 4 loadEnv3 (by decide) (by decide)

/-- C7 counterexample: the runtime statuses 3 and 7 produce bit-for-bit the
same outcome — a resolved `false` — so the call does not fail with a
specific `ModelLoadFailed{code}` error surfaced to the immediate caller;
the code is discarded inside `loadModel`'s catch. -/
theorem c7_counterexample :
    loadModel readyEngine "tiny-llama" 4 loadEnv3 =
      loadModel readyEngine "tiny-llama" 4 loadEnv7 ∧
    (loadModel readyEngine "tiny-llama" 4 loadEnv3).result = .ok false := by
  constructor <;> decide

/-- C10: if `loadModel` fails while a model is loaded (transfer throw or
nonzero status), the engine state is exactly unchanged — the previous model
stays current, the registry entry under the failed name is whatever it was
before — and a subsequent `generateResponse` behaves exactly as it would
have against the old state. -/
theorem c10_failed_load_keeps_model (s : EngineSt) (m modelName : String)
    (dataLen : Nat) (env : LoadEnv) (prompt : String) (options : GenOptions) (genv : GenEnv)
    (hm : s.currentModel = some m) (hfail : env.copyThrows = true ∨ env.status ≠ 0) :
    (loadModel s modelName dataLen env).state = s ∧
    (loadModel s modelName dataLen env).state.currentModel = some m ∧
    getModel (loadModel s modelName dataLen env).state.models modelName =
      getModel s.models modelName ∧
    generateResponse (loadModel s modelName dataLen env).state prompt options genv =
      generateResponse s prompt options genv := by
  have hstate : (loadModel s modelName dataLen env).state = s := by
    unfold loadModel
    rcases hfail with h | h <;> split_ifs <;> simp_all
  rw [hstate]
  exact ⟨rfl, hm, rfl, rfl⟩

/-- C10 witness: `c10_failed_load_keeps_model` on the loaded engine when the
runtime rejects the new blob with status 3: "tiny-llama" stays current. -/
theorem c10_failed_load_keeps_model_witness :
    (loadModel loadedEngine "new-model" 8 loadEnv3).state = loadedEngine ∧
    (loadModel loadedEngine "new-model" 8 loadEnv3).state.currentModel = some "tiny-llama" :=
  ⟨(c10_failed_load_keeps_model loadedEngine "tiny-llama" "new-model" 8 loadEnv3
      "привет" defaultGenOptions okGenEnv (by decide) (by decide)).1,
   (c10_failed_load_keeps_model loadedEngine "tiny-llama" "new-model" 8 loadEnv3
      "привет" defaultGenOptions okGenEnv (by decide) (by decide)).2.1⟩
